import Mathlib

/-!
Verification of the EntheosNow gesture-to-intensity flow: a shallow
embedding of the geometry helpers, the spiral intensity slider state
machine (rotation accumulation, clamped intensity, confirmation timer),
the split-screen picker variants, and the visualizer parameter
derivation, together with theorems settling the spec's claims.

Screen coordinates and angles are modelled over the reals; `Math.atan2`
is modelled by `Complex.arg` (the argument of `x + y·i`, which coincides
with `atan2 y x` and has range `(−π, π]`).
-/

open Real

namespace EntheosNow

/-- A screen-space point, y growing downward. -/
structure Point where
  x : ℝ
  y : ℝ

/-- `calculateAngle` from `IntensitySlider.tsx`:
`Math.atan2(y - centerY, x - centerX)`, modelled as the complex argument
of `(x - cx) + (y - cy)·i`. -/
noncomputable def calculateAngle (x y cx cy : ℝ) : ℝ :=
  Complex.arg ((x - cx : ℝ) + (y - cy : ℝ) * Complex.I)

/-- `getAngleDifference` from `IntensitySlider.tsx`: the raw difference
`angle1 - angle2`, then sequentially corrected by `-2π` when above `π`
and by `+2π` when below `-π`. -/
noncomputable def getAngleDifference (angle1 angle2 : ℝ) : ℝ :=
  let diff := angle1 - angle2
  let diff2 := if π < diff then diff - 2 * π else diff
  if diff2 < -π then diff2 + 2 * π else diff2

/-- The conversion of cumulative rotation to intensity used by
`onPanResponderMove`: `Math.max(0, Math.min(1, rotation / (2π)))`. -/
noncomputable def rotationToIntensity (rotation : ℝ) : ℝ :=
  max 0 (min 1 (rotation / (2 * π)))

/-- Euclidean distance, as computed in `onPanResponderMove`
(`Math.sqrt((x-sx)^2 + (y-sy)^2)`). -/
noncomputable def distance (p c : Point) : ℝ :=
  Real.sqrt ((p.x - c.x) ^ 2 + (p.y - c.y) ^ 2)

/-- Reduction of an unwrapped angle into `(−π, π]`, the range of
`Math.atan2`.  Used to model the raw samples a physically continuous
rotation produces. -/
noncomputable def wrapAngle (θ : ℝ) : ℝ :=
  θ - 2 * π * ⌈(θ - π) / (2 * π)⌉

lemma wrapAngle_spec (θ : ℝ) : -π < wrapAngle θ ∧ wrapAngle θ ≤ π := by
  have h2π : (0 : ℝ) < 2 * π := by positivity
  constructor
  · have h := Int.ceil_lt_add_one ((θ - π) / (2 * π))
    have h' : ((⌈(θ - π) / (2 * π)⌉ : ℝ) - 1) * (2 * π) < θ - π := by
      rw [← lt_div_iff₀ h2π]
      linarith
    unfold wrapAngle
    nlinarith [h']
  · have h := Int.le_ceil ((θ - π) / (2 * π))
    have h' : θ - π ≤ (⌈(θ - π) / (2 * π)⌉ : ℝ) * (2 * π) := by
      rw [← div_le_iff₀ h2π]
      exact h
    unfold wrapAngle
    nlinarith [h']

lemma wrapAngle_sub_self (θ : ℝ) : ∃ k : ℤ, θ - wrapAngle θ = 2 * π * k :=
  ⟨⌈(θ - π) / (2 * π)⌉, by unfold wrapAngle; ring⟩

lemma wrapAngle_zero : wrapAngle 0 = 0 := by
  unfold wrapAngle
  have hπ : (π : ℝ) ≠ 0 := Real.pi_ne_zero
  have h : ((0 : ℝ) - π) / (2 * π) = -(1 / 2) := by
    field_simp
    ring
  rw [h]
  have : ⌈(-(1 / 2) : ℝ)⌉ = 0 := by
    rw [Int.ceil_eq_zero_iff]
    constructor <;> norm_num
  rw [this]
  simp

/-- Key correctness fact for the wraparound correction: if two unwrapped
angles differ by strictly less than `π` in absolute value, then the
corrected difference of their wrapped samples recovers the true
difference exactly. -/
lemma getAngleDifference_wrap (a b : ℝ) (h1 : -π < a - b) (h2 : a - b < π) :
    getAngleDifference (wrapAngle a) (wrapAngle b) = a - b := by
  have hπ := Real.pi_pos
  obtain ⟨ka, hka⟩ := wrapAngle_sub_self a
  obtain ⟨kb, hkb⟩ := wrapAngle_sub_self b
  obtain ⟨ha1, ha2⟩ := wrapAngle_spec a
  obtain ⟨hb1, hb2⟩ := wrapAngle_spec b
  have hd : wrapAngle a - wrapAngle b = (a - b) + 2 * π * ((kb : ℝ) - (ka : ℝ)) := by
    linarith [hka, hkb]
  have hup : 2 * π * ((kb : ℝ) - (ka : ℝ)) < 3 * π := by linarith
  have hlo : -(3 * π) < 2 * π * ((kb : ℝ) - (ka : ℝ)) := by linarith
  have hub : ((kb : ℝ) - (ka : ℝ)) * (2 * π) < (3 / 2) * (2 * π) := by linarith
  have hlb : (-(3 / 2)) * (2 * π) < ((kb : ℝ) - (ka : ℝ)) * (2 * π) := by linarith
  have h2π : (0 : ℝ) < 2 * π := by positivity
  have hub' : ((kb : ℝ) - (ka : ℝ)) < 3 / 2 := (mul_lt_mul_right h2π).mp hub
  have hlb' : (-(3 / 2) : ℝ) < ((kb : ℝ) - (ka : ℝ)) := (mul_lt_mul_right h2π).mp hlb
  have hub2 : ((kb - ka : ℤ) : ℝ) < 2 := by push_cast; linarith
  have hlb2 : ((-2 : ℤ) : ℝ) < ((kb - ka : ℤ) : ℝ) := by push_cast; linarith
  have hub3 : (kb - ka : ℤ) < 2 := by exact_mod_cast hub2
  have hlb3 : (-2 : ℤ) < (kb - ka : ℤ) := by exact_mod_cast hlb2
  have hcase : (kb - ka : ℤ) = -1 ∨ (kb - ka : ℤ) = 0 ∨ (kb - ka : ℤ) = 1 := by omega
  rcases hcase with h | h | h
  · have hd' : wrapAngle a - wrapAngle b = (a - b) - 2 * π := by
      have : ((kb : ℝ) - (ka : ℝ)) = -1 := by
        have := congrArg (fun z : ℤ => (z : ℝ)) h
        push_cast at this
        linarith
      rw [hd, this]
      ring
    simp only [getAngleDifference]
    rw [hd']
    have hc1 : ¬(π < a - b - 2 * π) := by push_neg; linarith
    rw [if_neg hc1]
    have hc2 : a - b - 2 * π < -π := by linarith
    rw [if_pos hc2]
    ring
  · have hd' : wrapAngle a - wrapAngle b = a - b := by
      have : ((kb : ℝ) - (ka : ℝ)) = 0 := by
        have := congrArg (fun z : ℤ => (z : ℝ)) h
        push_cast at this
        linarith
      rw [hd, this]
      ring
    simp only [getAngleDifference]
    rw [hd']
    have hc1 : ¬(π < a - b) := by push_neg; linarith
    rw [if_neg hc1]
    have hc2 : ¬(a - b < -π) := by push_neg; linarith
    rw [if_neg hc2]
  · have hd' : wrapAngle a - wrapAngle b = (a - b) + 2 * π := by
      have : ((kb : ℝ) - (ka : ℝ)) = 1 := by
        have := congrArg (fun z : ℤ => (z : ℝ)) h
        push_cast at this
        linarith
      rw [hd, this]
      ring
    simp only [getAngleDifference]
    rw [hd']
    have hc1 : π < a - b + 2 * π := by linarith
    rw [if_pos hc1]
    have hc2 : ¬(a - b + 2 * π - 2 * π < -π) := by push_neg; linarith
    rw [if_neg hc2]
    ring

/-- The fold the spiral claims quantify over: starting from a previous
sample angle and an accumulated rotation, each incoming sample angle is
turned into a corrected delta (`getAngleDifference`) and added to the
total, and becomes the new previous angle — exactly the
`onPanResponderMove` update chain. -/
noncomputable def spiralTotal (last total : ℝ) : List ℝ → ℝ
  | [] => total
  | a :: rest => spiralTotal a (total + getAngleDifference a last) rest

/-- The running sums `c + s₁, c + s₁ + s₂, …` of a list of angular
steps: the unwrapped angles a monotone drag visits. -/
noncomputable def runningSums (c : ℝ) : List ℝ → List ℝ
  | [] => []
  | s :: rest => (c + s) :: runningSums (c + s) rest

/-- The live state of the spiral intensity control
(`IntensitySlider.tsx`, confirmation-timer variant).  Armed timeouts are
tracked explicitly: `armed` lists the ids of timeouts that have been
created by `setTimeout` and neither fired nor been cancelled, and
`longPressTimer` mirrors the React state cell holding the handle of the
most recently armed timeout (or `none`). -/
structure SliderState where
  intensity : ℝ
  totalRotation : ℝ
  lastAngle : Option ℝ
  armed : List ℕ
  longPressTimer : Option ℕ
  nextTimerId : ℕ
  isLongPressing : Bool
  showConfirmationPulse : Bool

/-- Initial component state: `useState(0)`, `useState(0)`,
`useState(null)`, no timer, flags false. -/
def initState : SliderState :=
  { intensity := 0
    totalRotation := 0
    lastAngle := none
    armed := []
    longPressTimer := none
    nextTimerId := 0
    isLongPressing := false
    showConfirmationPulse := false }

/-- `onPanResponderGrant`: bail out when there is no start point,
otherwise record the initial angle and arm a fresh 800ms confirmation
timeout.  The code does not clear any previously pending timeout here. -/
noncomputable def grant (startPoint : Option Point) (p : Point) (s : SliderState) :
    SliderState :=
  match startPoint with
  | none => s
  | some c =>
    { s with
      lastAngle := some (calculateAngle p.x p.y c.x c.y)
      armed := s.nextTimerId :: s.armed
      longPressTimer := some s.nextTimerId
      nextTimerId := s.nextTimerId + 1 }

/-- The cancellation block `if (longPressTimer) { clearTimeout(...);
setLongPressTimer(null); setShowConfirmationPulse(false); }`. -/
def cancelPending (s : SliderState) : SliderState :=
  match s.longPressTimer with
  | some id =>
    { s with
      armed := s.armed.erase id
      longPressTimer := none
      showConfirmationPulse := false }
  | none => s

/-- The body of `onPanResponderMove` once a start point `c` and a last
angle `la` are known: accumulate the corrected delta, recompute the
clamped intensity, and cancel the pending confirmation timeout when the
touch has drifted beyond the containment radius plus the 50px
tolerance. -/
noncomputable def moveCore (c : Point) (la : ℝ) (p : Point) (s : SliderState) :
    SliderState :=
  let currentAngle := calculateAngle p.x p.y c.x c.y
  let angleDiff := getAngleDifference currentAngle la
  let newTotalRotation := s.totalRotation + angleDiff
  let newIntensity := rotationToIntensity newTotalRotation
  let distanceFromAnchor := distance p c
  let currentNodeRadius := newIntensity * 150
  let s' :=
    { s with
      totalRotation := newTotalRotation
      lastAngle := some currentAngle
      intensity := newIntensity }
  if currentNodeRadius + 50 < distanceFromAnchor then cancelPending s' else s'

/-- `onPanResponderMove`: a sample is silently ignored when there is no
start point or no last angle. -/
noncomputable def move (startPoint : Option Point) (p : Point) (s : SliderState) :
    SliderState :=
  match startPoint, s.lastAngle with
  | some c, some la => moveCore c la p s
  | _, _ => s

/-- `onPanResponderRelease`: clear the pending timeout (if any), drop
the long-press flags, and forget the last angle.  Rotation and intensity
are untouched. -/
def release (s : SliderState) : SliderState :=
  let s1 :=
    match s.longPressTimer with
    | some id => { s with armed := s.armed.erase id, longPressTimer := none }
    | none => s
  { s1 with
    isLongPressing := false
    showConfirmationPulse := false
    lastAngle := none }

/-- An armed timeout firing: it leaves the armed set and
`triggerLongPressConfirmation` runs (the handle cell is not cleared by
the code).  A timeout that is not armed cannot fire. -/
def fire (id : ℕ) (s : SliderState) : SliderState :=
  if id ∈ s.armed then
    { s with
      armed := s.armed.erase id
      isLongPressing := true
      showConfirmationPulse := true }
  else s

/-- The input events of the spiral intensity control. -/
inductive Event where
  | grant (p : Point)
  | move (p : Point)
  | release
  | fire (id : ℕ)

/-- One event-processing step. -/
noncomputable def step (startPoint : Option Point) (s : SliderState) :
    Event → SliderState
  | Event.grant p => grant startPoint p s
  | Event.move p => move startPoint p s
  | Event.release => release s
  | Event.fire id => fire id s

/-- Processing a whole event sequence. -/
noncomputable def run (startPoint : Option Point) (s : SliderState) :
    List Event → SliderState
  | [] => s
  | e :: rest => run startPoint (step startPoint s e) rest

/-- Well-formed event sequences: the host (the React Native gesture
responder) delivers `grant` only while no touch is active, and
`release` ends the active touch.  The boolean tracks whether a touch is
currently down. -/
def wellFormed : Bool → List Event → Prop
  | _, [] => True
  | t, Event.grant _ :: rest => t = false ∧ wellFormed true rest
  | _, Event.release :: rest => wellFormed false rest
  | t, Event.move _ :: rest => wellFormed t rest
  | t, Event.fire _ :: rest => wellFormed t rest

/-- The two halves of the diagonally split screen. -/
inductive Half where
  | upper
  | lower
deriving DecidableEq

/-- The user's binary energy choice. -/
inductive EnergyState where
  | warm
  | cool
deriving DecidableEq

/-- `isPointInWarmTriangle` of the first `App` variant: the diagonal
runs from bottom-left `(0, height)` to top-right `(width, 0)`, with
equation `diagonalY = height - (height * x) / width`, and the function
returns `y < diagonalY`. -/
@[reducible] def isPointInWarmTriangle (x y w h : ℝ) : Prop :=
  y < h - h * x / w

/-- The spec's `classifyHalf`, realised by the first variant's
`isPointInWarmTriangle`: its comment identifies the `y < diagonalY`
region as the top-left (upper) triangle. -/
noncomputable def classifyHalf (x y w h : ℝ) : Half :=
  if isPointInWarmTriangle x y w h then Half.upper else Half.lower

/-- Dispatch of the first `App` variant's `onPanResponderGrant`:
`isPointInWarmTriangle` (that is, `y < diagonalY`) selects
`handleWarmPress`, anything else `handleCoolPress`. -/
noncomputable def dispatchA (x y w h : ℝ) : EnergyState :=
  if y < h - h * x / w then EnergyState.warm else EnergyState.cool

/-- Dispatch of the second `App` variant: its `isPointInWarmTriangle`
tests `y > diagonalY`, and its `onPanResponderGrant` routes a `true`
result to `handleCoolPress` and a `false` result to `handleWarmPress`. -/
noncomputable def dispatchB (x y w h : ℝ) : EnergyState :=
  if h - h * x / w < y then EnergyState.cool else EnergyState.warm

/-- `MusicVisualizer.tsx`: `animationDuration = Math.max(1000,
baseSpeed * speedMultiplier)` with `baseSpeed = 4000` and
`speedMultiplier = 1 - intensityLevel * 0.7`. -/
noncomputable def basePeriod (intensityLevel : ℝ) : ℝ :=
  max 1000 (4000 * (1 - intensityLevel * 0.7))

/-- State of the distance-based `IntensitySlider` variant. -/
structure DistState where
  startPoint : Option Point
  intensity : ℝ
  dragDistance : ℝ

/-- The distance-to-intensity conversion of the distance-based variant:
`Math.min(distance / 200, 1)`. -/
noncomputable def distIntensity (d : ℝ) : ℝ :=
  min (d / 200) 1

/-- `onPanResponderMove` of the distance-based variant: with an active
start point, intensity becomes `min(distance / 200, 1)` where the
distance is `Math.sqrt(deltaX * deltaX + deltaY * deltaY)` from the
start point. -/
noncomputable def distMove (p : Point) (s : DistState) : DistState :=
  match s.startPoint with
  | none => s
  | some sp =>
    let deltaX := p.x - sp.x
    let deltaY := p.y - sp.y
    let d := Real.sqrt (deltaX * deltaX + deltaY * deltaY)
    { s with dragDistance := d, intensity := distIntensity d }

lemma release_fields (s : SliderState) :
    (release s).intensity = s.intensity ∧
      (release s).totalRotation = s.totalRotation ∧
      (release s).lastAngle = none ∧
      (release s).longPressTimer = none := by
  unfold release
  cases h : s.longPressTimer <;> simp [h]

lemma grant_fields (sp : Option Point) (p : Point) (s : SliderState) :
    (grant sp p s).totalRotation = s.totalRotation ∧
      (grant sp p s).intensity = s.intensity := by
  unfold grant
  cases sp <;> simp

/-- Claim C3 fails as stated: both `0` and `π` are legal `atan2`
outputs (they lie in `(−π, π]`), yet `getAngleDifference 0 π = −π`,
which is outside the half-open interval `(−π, π]` — the code's
correction uses a strict `< -π` test, so `−π` itself is returned
unchanged. -/
theorem getAngleDifference_escapes_Ioc :
    (0 : ℝ) ∈ Set.Ioc (-π) π ∧ π ∈ Set.Ioc (-π) π ∧
      getAngleDifference 0 π = -π ∧ getAngleDifference 0 π ∉ Set.Ioc (-π) π := by
  have hπ := Real.pi_pos
  have hval : getAngleDifference 0 π = -π := by
    simp only [getAngleDifference]
    have hc1 : ¬(π < (0 : ℝ) - π) := by push_neg; linarith
    rw [if_neg hc1]
    have hc2 : ¬((0 : ℝ) - π < -π) := by push_neg; linarith
    rw [if_neg hc2]
    ring
  refine ⟨⟨by linarith, by linarith⟩, ⟨by linarith, le_refl π⟩, hval, ?_⟩
  rw [hval]
  intro hmem
  exact lt_irrefl (-π) hmem.1

/-- Claim C3 (amended): for angles `a, b ∈ (−π, π]` the corrected
delta `getAngleDifference a b` lies in the closed interval `[−π, π]`
(the left endpoint `−π` is attained, e.g. at `a = 0, b = π`). -/
theorem getAngleDifference_mem_Icc (a b : ℝ)
    (ha : a ∈ Set.Ioc (-π) π) (hb : b ∈ Set.Ioc (-π) π) :
    getAngleDifference a b ∈ Set.Icc (-π) π := by
  obtain ⟨ha1, ha2⟩ := ha
  obtain ⟨hb1, hb2⟩ := hb
  have hπ := Real.pi_pos
  simp only [getAngleDifference, Set.mem_Icc]
  split_ifs with hA hB hB' <;> constructor <;> linarith

/-- Witness for the amended C3 at `a = b = 0`. -/
theorem getAngleDifference_mem_Icc_holds :
    getAngleDifference 0 0 ∈ Set.Icc (-π) π :=
  getAngleDifference_mem_Icc 0 0
    ⟨by linarith [Real.pi_pos], Real.pi_pos.le⟩
    ⟨by linarith [Real.pi_pos], Real.pi_pos.le⟩

/-- Claim C7: points strictly above the diagonal
(`y < height − height·x/width`) classify as `upper`, every other point
(boundary included) as `lower`; in particular on a 400×800 screen the
tap `(350, 100)` lands exactly on the diagonal (`diagonalY = 100`) and
classifies as `lower`. -/
theorem classifyHalf_spec :
    (∀ x y w h : ℝ,
        (isPointInWarmTriangle x y w h → classifyHalf x y w h = Half.upper) ∧
        (¬ isPointInWarmTriangle x y w h → classifyHalf x y w h = Half.lower)) ∧
      classifyHalf 350 100 400 800 = Half.lower := by
  constructor
  · intro x y w h
    constructor
    · intro hwarm
      unfold classifyHalf
      rw [if_pos hwarm]
    · intro hcool
      unfold classifyHalf
      rw [if_neg hcool]
  · unfold classifyHalf
    rw [if_neg (by norm_num [isPointInWarmTriangle])]

/-- Witness for C7: `(0, 0)` is strictly above the diagonal of a
400×800 screen and classifies as `upper`. -/
theorem classifyHalf_spec_holds : classifyHalf 0 0 400 800 = Half.upper :=
  (classifyHalf_spec.1 0 0 400 800).1 (by norm_num [isPointInWarmTriangle])

/-- Claim C8: off the diagonal boundary, the two `App` variants
dispatch every touch point to the same energy state — the second
variant inverts the classifier (`y > diagonalY`) but also swaps the
handlers, so the composed mapping agrees with the first variant. -/
theorem dispatch_variants_agree (x y w h : ℝ) (hw : 0 < w) (hh : 0 < h)
    (hne : y ≠ h - h * x / w) : dispatchA x y w h = dispatchB x y w h := by
  unfold dispatchA dispatchB
  rcases lt_or_gt_of_ne hne with hlt | hgt
  · rw [if_pos hlt, if_neg (by linarith)]
  · rw [if_neg (by linarith), if_pos hgt]

/-- Witness for C8 at the off-boundary point `(0, 100)` on a 400×800
screen. -/
theorem dispatch_variants_agree_holds :
    dispatchA 0 100 400 800 = dispatchB 0 100 400 800 :=
  dispatch_variants_agree 0 100 400 800 (by norm_num) (by norm_num) (by norm_num)

/-- Claim C9: the visualizer's base animation period is exactly 4000 at
intensity 0 and 1200 at intensity 1, is never below 1000, and is
strictly decreasing in the intensity over `[0, 1]`. -/
theorem basePeriod_spec :
    basePeriod 0 = 4000 ∧ basePeriod 1 = 1200 ∧
      (∀ i : ℝ, 1000 ≤ basePeriod i) ∧
      (∀ i j : ℝ, 0 ≤ i → i < j → j ≤ 1 → basePeriod j < basePeriod i) := by
  have hlin : ∀ i : ℝ, i ≤ 1 → basePeriod i = 4000 - 2800 * i := by
    intro i hi
    unfold basePeriod
    rw [max_eq_right (by nlinarith)]
    ring
  refine ⟨?_, ?_, ?_, ?_⟩
  · rw [hlin 0 (by norm_num)]; norm_num
  · rw [hlin 1 le_rfl]; norm_num
  · intro i
    exact le_max_left _ _
  · intro i j hi hij hj
    rw [hlin i (le_of_lt (lt_of_lt_of_le hij hj)), hlin j hj]
    linarith

/-- Witness for C9: the period at intensity 1 is strictly below the
period at intensity 0. -/
theorem basePeriod_spec_holds : basePeriod 1 < basePeriod 0 :=
  basePeriod_spec.2.2.2 0 1 le_rfl (by norm_num) le_rfl

/-- Claim C10: in the distance-based slider variant, a touch-move with
an active start point sets the intensity to
`min(distance/200, 1)` of the sample's distance to the start point;
that value lies in `[0, 1]`, is monotone nondecreasing in the distance,
and saturates at exactly 1 for every distance of at least 200. -/
theorem distMove_intensity_spec :
    (∀ (p : Point) (s : DistState) (sp : Point), s.startPoint = some sp →
        (distMove p s).intensity =
          distIntensity
            (Real.sqrt ((p.x - sp.x) * (p.x - sp.x) + (p.y - sp.y) * (p.y - sp.y))) ∧
        0 ≤ (distMove p s).intensity ∧ (distMove p s).intensity ≤ 1) ∧
      (∀ d d' : ℝ, d ≤ d' → distIntensity d ≤ distIntensity d') ∧
      (∀ d : ℝ, 200 ≤ d → distIntensity d = 1) := by
  refine ⟨?_, ?_, ?_⟩
  · intro p s sp hsp
    have hmove :
        (distMove p s).intensity =
          distIntensity
            (Real.sqrt ((p.x - sp.x) * (p.x - sp.x) + (p.y - sp.y) * (p.y - sp.y))) := by
      simp [distMove, hsp]
    refine ⟨hmove, ?_, ?_⟩
    · rw [hmove]
      exact le_min (div_nonneg (Real.sqrt_nonneg _) (by norm_num)) zero_le_one
    · rw [hmove]
      exact min_le_right _ _
  · intro d d' hdd
    exact min_le_min (by linarith [hdd]) le_rfl
  · intro d hd
    unfold distIntensity
    rw [min_eq_right]
    rw [le_div_iff₀ (by norm_num : (0 : ℝ) < 200)]
    linarith

/-- Witness for C10: a sample at `(30, 40)` from start point `(0, 0)`
(distance 50) takes the `min(d/200, 1)` value, and distance 250
saturates the conversion at 1. -/
theorem distMove_intensity_spec_holds :
    (distMove ⟨30, 40⟩ ⟨some ⟨0, 0⟩, 0, 0⟩).intensity =
        distIntensity (Real.sqrt ((30 - 0) * (30 - 0) + (40 - 0) * (40 - 0))) ∧
      distIntensity 250 = 1 :=
  ⟨(distMove_intensity_spec.1 ⟨30, 40⟩ ⟨some ⟨0, 0⟩, 0, 0⟩ ⟨0, 0⟩ rfl).1,
    distMove_intensity_spec.2.2 250 (by norm_num)⟩

lemma rotationToIntensity_nonneg (t : ℝ) : 0 ≤ rotationToIntensity t :=
  le_max_left _ _

lemma rotationToIntensity_le_one (t : ℝ) : rotationToIntensity t ≤ 1 :=
  max_le zero_le_one (min_le_left _ _)

lemma cancelPending_core_fields (s : SliderState) :
    (cancelPending s).intensity = s.intensity ∧
      (cancelPending s).totalRotation = s.totalRotation ∧
      (cancelPending s).lastAngle = s.lastAngle := by
  unfold cancelPending
  cases s.longPressTimer <;> simp

lemma moveCore_inv (c : Point) (la : ℝ) (p : Point) (s : SliderState) :
    (moveCore c la p s).intensity =
      rotationToIntensity ((moveCore c la p s).totalRotation) := by
  simp only [moveCore]
  split_ifs with hdrift
  · rw [(cancelPending_core_fields _).1, (cancelPending_core_fields _).2.1]
  · rfl

lemma step_inv (sp : Option Point) (s : SliderState) (e : Event)
    (h : s.intensity = rotationToIntensity s.totalRotation) :
    (step sp s e).intensity = rotationToIntensity ((step sp s e).totalRotation) := by
  cases e with
  | grant p =>
    simp only [step]
    rw [(grant_fields sp p s).2, (grant_fields sp p s).1]
    exact h
  | move p =>
    simp only [step, move]
    cases sp with
    | none => exact h
    | some c =>
      cases hla : s.lastAngle with
      | none => exact h
      | some la => exact moveCore_inv c la p s
  | release =>
    simp only [step]
    rw [(release_fields s).1, (release_fields s).2.1]
    exact h
  | fire id =>
    simp only [step, fire]
    split_ifs <;> exact h

lemma run_inv (sp : Option Point) (evts : List Event) :
    ∀ s : SliderState, s.intensity = rotationToIntensity s.totalRotation →
      (run sp s evts).intensity = rotationToIntensity ((run sp s evts).totalRotation) := by
  induction evts with
  | nil => intro s h; exact h
  | cons e rest ih =>
    intro s h
    exact ih (step sp s e) (step_inv sp s e h)

/-- Claim C1: after processing any sequence of touch events, the stored
intensity equals `clamp(cumulativeRotation / 2π, 0, 1)` — the invariant
holds after every touch-down, touch-move, and touch-up — and in
particular the intensity always lies in `[0, 1]`. -/
theorem intensity_invariant (sp : Option Point) (evts : List Event) :
    (run sp initState evts).intensity =
        max 0 (min 1 ((run sp initState evts).totalRotation / (2 * π))) ∧
      0 ≤ (run sp initState evts).intensity ∧
        (run sp initState evts).intensity ≤ 1 := by
  have h0 : initState.intensity = rotationToIntensity initState.totalRotation := by
    simp [initState, rotationToIntensity]
  have h := run_inv sp evts initState h0
  refine ⟨h, ?_, ?_⟩
  · rw [h]
    exact rotationToIntensity_nonneg _
  · rw [h]
    exact rotationToIntensity_le_one _

lemma spiralTotal_runningSums (l : List ℝ) :
    ∀ c t : ℝ, (∀ x ∈ l, 0 < x) → (∀ x ∈ l, x < π) →
      spiralTotal (wrapAngle c) t ((runningSums c l).map wrapAngle) = t + l.sum := by
  induction l with
  | nil =>
    intro c t _ _
    simp [runningSums, spiralTotal]
  | cons s rest ih =>
    intro c t hpos hlt
    have hs0 : 0 < s := hpos s (List.mem_cons_self s rest)
    have hsπ : s < π := hlt s (List.mem_cons_self s rest)
    have hπ := Real.pi_pos
    simp only [runningSums, List.map_cons, spiralTotal]
    rw [getAngleDifference_wrap (c + s) c (by linarith) (by linarith)]
    rw [ih (c + s) (t + (c + s - c)) (fun x hx => hpos x (List.mem_cons_of_mem s hx))
      (fun x hx => hlt x (List.mem_cons_of_mem s hx))]
    rw [List.sum_cons]
    ring

/-- Claim C2: a monotone drag starting at angle 0 whose positive
angular steps are each smaller than `π` and sum to exactly `2π`
accumulates `cumulativeRotation = 2π` through the wraparound-corrected
delta chain — regardless of how many samples the turn is split into —
and the resulting clamped intensity is exactly 1. -/
theorem full_turn_reaches_one (l : List ℝ)
    (hpos : ∀ x ∈ l, 0 < x) (hlt : ∀ x ∈ l, x < π) (hsum : l.sum = 2 * π) :
    spiralTotal 0 0 ((runningSums 0 l).map wrapAngle) = 2 * π ∧
      rotationToIntensity (spiralTotal 0 0 ((runningSums 0 l).map wrapAngle)) = 1 := by
  have h := spiralTotal_runningSums l 0 0 hpos hlt
  rw [wrapAngle_zero] at h
  have h0 : spiralTotal 0 0 ((runningSums 0 l).map wrapAngle) = 2 * π := by
    rw [h, hsum]
    ring
  refine ⟨h0, ?_⟩
  rw [h0]
  unfold rotationToIntensity
  rw [div_self (by positivity : (2 * π : ℝ) ≠ 0)]
  norm_num

/-- Witness for C2: a full turn taken in four quarter-turn steps. -/
theorem full_turn_reaches_one_holds :
    spiralTotal 0 0 ((runningSums 0 [π / 2, π / 2, π / 2, π / 2]).map wrapAngle) = 2 * π ∧
      rotationToIntensity
          (spiralTotal 0 0 ((runningSums 0 [π / 2, π / 2, π / 2, π / 2]).map wrapAngle)) = 1 :=
  full_turn_reaches_one [π / 2, π / 2, π / 2, π / 2]
    (by
      intro x hx
      simp only [List.mem_cons, List.not_mem_nil, or_false] at hx
      rcases hx with rfl | rfl | rfl | rfl <;> linarith [Real.pi_pos])
    (by
      intro x hx
      simp only [List.mem_cons, List.not_mem_nil, or_false] at hx
      rcases hx with rfl | rfl | rfl | rfl <;> linarith [Real.pi_pos])
    (by simp [List.sum_cons]; ring)

/-- Claim C5: on a touch-move whose sample lies farther from the anchor
than the containment radius (`newIntensity · 150`) plus the 50px
tolerance, the pending confirmation timer is cancelled while the
cumulative rotation, intensity, and last angle keep the values just
computed for that sample — nothing is reset. -/
theorem drift_cancels_timer (c : Point) (la : ℝ) (p : Point) (s : SliderState)
    (hla : s.lastAngle = some la)
    (hdrift :
      rotationToIntensity
            (s.totalRotation + getAngleDifference (calculateAngle p.x p.y c.x c.y) la) *
          150 + 50 <
        distance p c) :
    (move (some c) p s).longPressTimer = none ∧
      (move (some c) p s).totalRotation =
        s.totalRotation + getAngleDifference (calculateAngle p.x p.y c.x c.y) la ∧
      (move (some c) p s).intensity =
        rotationToIntensity
          (s.totalRotation + getAngleDifference (calculateAngle p.x p.y c.x c.y) la) ∧
      (∀ id, s.longPressTimer = some id →
        (move (some c) p s).armed = s.armed.erase id) := by
  simp only [move, hla]
  simp only [moveCore]
  rw [if_pos hdrift]
  unfold cancelPending
  cases h : s.longPressTimer with
  | none => simp [h]
  | some id => simp [h]

lemma calculateAngle_east : calculateAngle 100 0 0 0 = 0 := by
  unfold calculateAngle
  have h : ((100 - 0 : ℝ) : ℂ) + ((0 - 0 : ℝ) : ℂ) * Complex.I = ((100 : ℝ) : ℂ) := by
    push_cast
    ring
  rw [h]
  exact Complex.arg_ofReal_of_nonneg (by norm_num)

lemma getAngleDifference_self_zero : getAngleDifference 0 0 = 0 := by
  have hπ := Real.pi_pos
  simp only [getAngleDifference]
  rw [if_neg (by push_neg; linarith : ¬(π < (0 : ℝ) - 0))]
  rw [if_neg (by push_neg; linarith : ¬((0 : ℝ) - 0 < -π))]
  norm_num

lemma rotationToIntensity_zero : rotationToIntensity 0 = 0 := by
  simp [rotationToIntensity]

lemma distance_east : distance ⟨100, 0⟩ ⟨0, 0⟩ = 100 := by
  show Real.sqrt (((100 : ℝ) - 0) ^ 2 + ((0 : ℝ) - 0) ^ 2) = 100
  have h : ((100 : ℝ) - 0) ^ 2 + ((0 : ℝ) - 0) ^ 2 = 100 ^ 2 := by norm_num
  rw [h, Real.sqrt_sq (by norm_num : (0 : ℝ) ≤ 100)]

/-- Witness for C5: from anchor `(0, 0)` with last angle 0 and an armed
timer, a sample at `(100, 0)` (distance 100, containment radius 0)
cancels the pending timer. -/
theorem drift_cancels_timer_holds :
    (move (some ⟨0, 0⟩) ⟨100, 0⟩
        { initState with
          lastAngle := some 0
          armed := [0]
          longPressTimer := some 0
          nextTimerId := 1 }).longPressTimer = none :=
  (drift_cancels_timer ⟨0, 0⟩ 0 ⟨100, 0⟩
      { initState with
        lastAngle := some 0
        armed := [0]
        longPressTimer := some 0
        nextTimerId := 1 }
      rfl
      (by
        show rotationToIntensity (0 + getAngleDifference (calculateAngle 100 0 0 0) 0) *
              150 + 50 <
            distance ⟨100, 0⟩ ⟨0, 0⟩
        rw [calculateAngle_east, getAngleDifference_self_zero, add_zero,
          rotationToIntensity_zero, distance_east]
        norm_num)).1

/-- Claim C6: touch-up clears the pending confirmation timer and the
last angle while keeping cumulative rotation and intensity; a
subsequent touch-down (same screen activation, so the same start point
prop) also keeps both — lifting and re-touching never resets the
accumulated rotation. -/
theorem release_retains_rotation (sp : Option Point) (p : Point) (s : SliderState) :
    (release s).lastAngle = none ∧
      (release s).longPressTimer = none ∧
      (release s).totalRotation = s.totalRotation ∧
      (release s).intensity = s.intensity ∧
      (∀ id, s.longPressTimer = some id → s.armed.Nodup → id ∉ (release s).armed) ∧
      (grant sp p (release s)).totalRotation = s.totalRotation ∧
      (grant sp p (release s)).intensity = s.intensity := by
  obtain ⟨hint, hrot, hla, hlp⟩ := release_fields s
  refine ⟨hla, hlp, hrot, hint, ?_, ?_, ?_⟩
  · intro id hid hnd
    have harm : (release s).armed = s.armed.erase id := by
      simp [release, hid]
    rw [harm]
    exact hnd.not_mem_erase
  · rw [(grant_fields sp p (release s)).1, hrot]
  · rw [(grant_fields sp p (release s)).2, hint]

/-- Witness for C6: releasing with timer 5 armed removes it from the
armed set. -/
theorem release_retains_rotation_holds :
    (5 : ℕ) ∉ (release { initState with longPressTimer := some 5, armed := [5] }).armed :=
  (release_retains_rotation none ⟨0, 0⟩
      { initState with longPressTimer := some 5, armed := [5] }).2.2.2.2.1 5 rfl (by simp)

/-- Claim C4 fails as stated: `onPanResponderGrant` arms a fresh
timeout without clearing any previously pending one, so the event
sequence of two consecutive touch-downs (no intervening touch-up)
leaves two confirmation timers armed simultaneously. -/
theorem grant_does_not_cancel_prior_timer :
    (run (some ⟨0, 0⟩) initState
        [Event.grant ⟨1, 0⟩, Event.grant ⟨1, 0⟩]).armed.length = 2 := by
  simp [run, step, grant, initState]

/-- At most one timeout is pending, and it is the one the handle cell
points to. -/
def TimerInv (s : SliderState) : Prop :=
  s.armed = [] ∨ ∃ id, s.longPressTimer = some id ∧ s.armed = [id]

lemma cancelPending_timerInv (s : SliderState) (h : TimerInv s) :
    TimerInv (cancelPending s) := by
  unfold cancelPending
  cases hh : s.longPressTimer with
  | none => exact h
  | some id =>
    rcases h with h1 | ⟨id', hid', harm⟩
    · left
      simp [h1]
    · left
      rw [hh] at hid'
      obtain rfl : id = id' := by injection hid'
      simp [harm]

lemma cancelPending_armed_nil (s : SliderState) (h : s.armed = []) :
    (cancelPending s).armed = [] := by
  unfold cancelPending
  cases s.longPressTimer <;> simp [h]

lemma moveCore_timerInv (c : Point) (la : ℝ) (p : Point) (s : SliderState)
    (h : TimerInv s) : TimerInv (moveCore c la p s) := by
  simp only [moveCore]
  split_ifs with hd
  · apply cancelPending_timerInv
    unfold TimerInv at h ⊢
    simpa using h
  · unfold TimerInv at h ⊢
    simpa using h

lemma moveCore_armed_nil (c : Point) (la : ℝ) (p : Point) (s : SliderState)
    (h : s.armed = []) : (moveCore c la p s).armed = [] := by
  simp only [moveCore]
  split_ifs with hd
  · apply cancelPending_armed_nil
    simpa using h
  · simpa using h

lemma move_timerInv (sp : Option Point) (p : Point) (s : SliderState)
    (h : TimerInv s) : TimerInv (move sp p s) := by
  unfold move
  cases sp with
  | none => exact h
  | some c =>
    cases hla : s.lastAngle with
    | none => exact h
    | some la => exact moveCore_timerInv c la p s h

lemma move_armed_nil (sp : Option Point) (p : Point) (s : SliderState)
    (h : s.armed = []) : (move sp p s).armed = [] := by
  unfold move
  cases sp with
  | none => exact h
  | some c =>
    cases hla : s.lastAngle with
    | none => exact h
    | some la => exact moveCore_armed_nil c la p s h

lemma release_armed_of_timerInv (s : SliderState) (h : TimerInv s) :
    (release s).armed = [] := by
  rcases h with h1 | ⟨id, hid, harm⟩
  · unfold release
    cases hh : s.longPressTimer <;> simp [h1, hh]
  · simp [release, hid, harm]

lemma fire_timerInv (id : ℕ) (s : SliderState) (h : TimerInv s) :
    TimerInv (fire id s) := by
  unfold fire
  split_ifs with hmem
  · rcases h with h1 | ⟨id', hid', harm⟩
    · left
      simp [h1]
    · left
      rw [harm] at hmem
      simp only [List.mem_singleton] at hmem
      subst hmem
      simp [harm]
  · exact h

lemma fire_armed_nil (id : ℕ) (s : SliderState) (h : s.armed = []) :
    (fire id s).armed = [] := by
  unfold fire
  split_ifs with hmem
  · simp [h]
  · exact h

lemma run_timerInv (sp : Option Point) (evts : List Event) :
    ∀ (t : Bool) (s : SliderState), wellFormed t evts →
      TimerInv s → (t = false → s.armed = []) → TimerInv (run sp s evts) := by
  induction evts with
  | nil =>
    intro t s _ h _
    exact h
  | cons e rest ih =>
    intro t s hwf hinv hnil
    cases e with
    | grant p =>
      obtain ⟨ht, hwf'⟩ := hwf
      have harm : s.armed = [] := hnil ht
      simp only [run, step]
      apply ih true (grant sp p s) hwf'
      · unfold grant
        cases sp with
        | none => exact hinv
        | some c =>
          right
          exact ⟨s.nextTimerId, by simp, by simp [harm]⟩
      · intro hcontra
        exact absurd hcontra (by simp)
    | move p =>
      simp only [run, step]
      apply ih t (move sp p s) hwf (move_timerInv sp p s hinv)
      intro ht
      exact move_armed_nil sp p s (hnil ht)
    | release =>
      simp only [run, step]
      apply ih false (release s) hwf
      · exact Or.inl (release_armed_of_timerInv s hinv)
      · intro _
        exact release_armed_of_timerInv s hinv
    | fire id =>
      simp only [run, step]
      apply ih t (fire id s) hwf (fire_timerInv id s hinv)
      intro ht
      exact fire_armed_nil id s (hnil ht)

/-- Claim C4 (amended): touch-down does not cancel a previously pending
timer (see the counterexample of two consecutive touch-downs), but
under the host's guarantee that touch-downs and touch-ups alternate —
every `grant` arrives with no touch active — every reachable state has
at most one confirmation timer armed, because touch-up and drift
cancellation clear the pending one. -/
theorem at_most_one_timer_when_alternating (sp : Option Point) (evts : List Event)
    (hwf : wellFormed false evts) :
    (run sp initState evts).armed.length ≤ 1 := by
  have h := run_timerInv sp evts false initState hwf (Or.inl rfl) (fun _ => rfl)
  rcases h with h | ⟨id, _, h⟩ <;> simp [h]

/-- Witness for the amended C4 on the alternating sequence
touch-down, touch-up. -/
theorem at_most_one_timer_when_alternating_holds :
    (run (some ⟨0, 0⟩) initState [Event.grant ⟨1, 0⟩, Event.release]).armed.length ≤ 1 :=
  at_most_one_timer_when_alternating (some ⟨0, 0⟩) [Event.grant ⟨1, 0⟩, Event.release]
    ⟨rfl, trivial⟩

end EntheosNow
